import Mathlib

/-!
Shallow embedding of the booking/payment core of the cinema-booking backend
(`internal/usecase/booking_srv.go`, `internal/data/repository/otp_repo.go`,
`internal/dto/request/booking.go`, `internal/data/entity/*.go`).

Modelling conventions:
* UUIDs are modelled as `Nat` identifiers; requests arrive with already-parsed
  identifiers (the Go `uuid.Parse` steps only reject malformed strings and no
  claim is about string parsing).
* Go `float64` monetary values (`Schedule.Price`, `Booking.TotalPrice`,
  `Payment.Amount`) are modelled as exact rationals `ℚ`.  Every arithmetic
  operation the source performs on them is a single multiplication or an exact
  comparison (`==`, `!=`, `<`), so no claim in scope depends on binary
  floating-point rounding.
* `time.Time` values (`ShowDate`, `time.Now()`) are modelled as `Int` seconds;
  `24 * time.Hour` is `86400` seconds.  `ShowDate` carries the date component
  (midnight) and `ShowTime` the time-of-day component, as two separate fields,
  exactly as in `entity.Schedule`.
* The relational store is a `DB` record of lists of rows.  Repository calls
  (`FindByID`, `Create`, `CreateBatch`, `Update`, `UpdateStatus`,
  `FindBookedSeatsBySchedule`) become pure functions on `DB`.
* Fields no claim reads are omitted from the row types: timestamps, order
  codes, seat numbers/rows/columns, movie/cinema display data, transaction
  ids, the coarse `Seat.IsAvailable` catalog flag.
* The Go services return `error` values built with `fmt.Errorf`; following the
  spec's error taxonomy (§7) each distinct error site is mapped to its kind
  (`Validation`, `NotFound`, `InvalidState`, `Conflict`, `Unauthorized`).
* Store-write failures are not modelled except where a claim is about them:
  `processPayment` takes a `bookingUpdateSucceeds` flag modelling a failing
  `repo.Booking.Update` (the code logs and continues on that failure).
-/

namespace CinemaBooking

/-- `entity.BookingStatus` (entity/booking.go): pending, confirmed,
cancelled, expired. -/
inductive BookingStatus
  | pending
  | confirmed
  | cancelled
  | expired
deriving DecidableEq, Repr

/-- `entity.PaymentStatus` (entity file of Payment): pending, completed,
failed. -/
inductive PaymentStatus
  | pending
  | completed
  | failed
deriving DecidableEq, Repr

/-- `entity.Schedule`: movie, hall, show date, show time, price.
`showDate` is the date component (midnight, seconds since epoch); `showTime`
is the time-of-day component in seconds, two separate fields as in the Go
struct. -/
structure Schedule where
  id : Nat
  movieID : Nat
  hallID : Nat
  showDate : Int
  showTime : Int
  price : ℚ
deriving DecidableEq, Repr

/-- `entity.Hall` (hall.go); only the identity and cinema reference matter
to the booking core. -/
structure Hall where
  id : Nat
  cinemaID : Nat
deriving DecidableEq, Repr

/-- `entity.Seat`: belongs to exactly one hall. -/
structure Seat where
  id : Nat
  hallID : Nat
deriving DecidableEq, Repr

/-- `entity.Booking` (booking.go): the root aggregate. -/
structure Booking where
  id : Nat
  userID : Nat
  scheduleID : Nat
  totalSeats : Nat
  totalPrice : ℚ
  status : BookingStatus
deriving DecidableEq, Repr

/-- `entity.BookingSeat` (booking_seat.go): join row binding one booking to
one seat. -/
structure BookingSeat where
  bookingID : Nat
  seatID : Nat
deriving DecidableEq, Repr

/-- `entity.Payment`. -/
structure Payment where
  id : Nat
  bookingID : Nat
  paymentMethodID : Nat
  amount : ℚ
  status : PaymentStatus
deriving DecidableEq, Repr

/-- `entity.PaymentMethod`: catalog row with an active flag. -/
structure PaymentMethod where
  id : Nat
  isActive : Bool
deriving DecidableEq, Repr

/-- The relational store: one list of rows per table touched by the booking
core. -/
structure DB where
  schedules : List Schedule
  halls : List Hall
  seats : List Seat
  bookings : List Booking
  bookingSeats : List BookingSeat
  payments : List Payment
  paymentMethods : List PaymentMethod
deriving DecidableEq, Repr

/-- Error kinds of the spec's taxonomy (§7).  Each `fmt.Errorf` site of the
service maps to one kind:
* `validation`: struct-tag validation failure, payment amount mismatch;
* `notFound`: schedule/seat/hall/booking/payment-method missing;
* `invalidState`: past schedule, seat not in schedule hall, wrong booking
  status, inactive payment method;
* `conflict`: seat already booked;
* `unauthorized`: booking not owned by the caller. -/
inductive BookingError
  | validation
  | notFound
  | invalidState
  | conflict
  | unauthorized
deriving DecidableEq, Repr

/-- `request.CreateBookingRequest` (dto/request/booking.go), with parsed ids.
`paymentMethodID` is carried but never used by `CreateBooking`, as in the
source. -/
structure CreateBookingRequest where
  scheduleID : Nat
  seatIDs : List Nat
  paymentMethodID : Nat
deriving DecidableEq, Repr

/-- `request.ProcessPaymentRequest` (dto/request/booking.go), with parsed
ids.  The struct tag on `Amount` is `validate:"required,min=1000"`: the Go
validator rejects a zero (absent) amount via `required` and any amount below
1000 via `min=1000`. -/
structure ProcessPaymentRequest where
  bookingID : Nat
  paymentMethodID : Nat
  amount : ℚ
deriving DecidableEq, Repr

/-- Statuses that count toward seat exclusivity: the SQL of
`FindBookedSeatsBySchedule` filters `b.status IN ('confirmed', 'pending')`. -/
def BookingStatus.isActive : BookingStatus → Bool
  | .pending => true
  | .confirmed => true
  | .cancelled => false
  | .expired => false

/-- `repo.Schedule.FindByID`: first row with the given primary key. -/
def findScheduleByID (db : DB) (id : Nat) : Option Schedule :=
  db.schedules.find? (fun s => s.id == id)

/-- `repo.Hall.FindByID`. -/
def findHallByID (db : DB) (id : Nat) : Option Hall :=
  db.halls.find? (fun h => h.id == id)

/-- `repo.Seat.FindByID`. -/
def findSeatByID (db : DB) (id : Nat) : Option Seat :=
  db.seats.find? (fun s => s.id == id)

/-- `repo.Booking.FindByID`. -/
def findBookingByID (db : DB) (id : Nat) : Option Booking :=
  db.bookings.find? (fun b => b.id == id)

/-- `repo.PaymentMethod.FindByID`. -/
def findPaymentMethodByID (db : DB) (id : Nat) : Option PaymentMethod :=
  db.paymentMethods.find? (fun pm => pm.id == id)

/-- `repo.BookingSeat.FindBookedSeatsBySchedule` (otp_repo.go:293):

    SELECT DISTINCT bs.seat_id
    FROM booking_seats bs
    INNER JOIN bookings b ON bs.booking_id = b.id
    WHERE b.schedule_id = $1 AND b.status IN ('confirmed', 'pending')

The inner join and the status/schedule filter become a `filter` over the
booking-seat rows; `DISTINCT` becomes `dedup`. -/
def findBookedSeatsBySchedule (db : DB) (scheduleID : Nat) : List Nat :=
  ((db.bookingSeats.filter (fun bs =>
      db.bookings.any (fun b =>
        b.id == bs.bookingID && b.scheduleID == scheduleID &&
          b.status.isActive))).map BookingSeat.seatID).dedup

/-- `24 * time.Hour` of booking_srv.go:69, in seconds. -/
def graceWindowSeconds : Int := 86400

/-- One iteration of the per-seat loop of `CreateBooking`
(booking_srv.go:91): the seat must exist, must be in the schedule's hall,
and must not be in the previously fetched booked-seat list; checks in that
order, returning the first failure. -/
def checkSeat (db : DB) (schedule : Schedule) (bookedSeats : List Nat)
    (seatID : Nat) : Option BookingError :=
  match findSeatByID db seatID with
  | none => some .notFound
  | some seat =>
    if seat.hallID ≠ schedule.hallID then some .invalidState
    else if bookedSeats.contains seatID then some .conflict
    else none

/-- The read/check phase of `CreateBooking` (booking_srv.go:44-115): request
validation (`SeatIDs` tagged `required,min=1`), schedule lookup, the
staleness check `schedule.ShowDate.Before(time.Now().Add(-24 * time.Hour))`
(note: only `ShowDate` is consulted, never `ShowTime`), the booked-seat
snapshot, the per-seat loop, and the hall lookup.  No store write happens in
this phase.  Returns the schedule row read, which the write phase uses for
the price. -/
def createBookingCheck (db : DB) (now : Int) (req : CreateBookingRequest) :
    Except BookingError Schedule :=
  if req.seatIDs.isEmpty then .error .validation
  else
    match findScheduleByID db req.scheduleID with
    | none => .error .notFound
    | some schedule =>
      if schedule.showDate < now - graceWindowSeconds then .error .invalidState
      else
        match req.seatIDs.findSome?
            (checkSeat db schedule (findBookedSeatsBySchedule db req.scheduleID)) with
        | some e => .error e
        | none =>
          match findHallByID db schedule.hallID with
          | none => .error .notFound
          | some _ => .ok schedule

/-- The write phase of `CreateBooking` (booking_srv.go:117-164): computes
`totalPrice := schedule.Price * float64(len(seatUUIDs))`, persists the
booking with status `pending` and `TotalSeats = len(seatUUIDs)`, then
persists one `BookingSeat` row per entry of `seatIDs` (`CreateBatch`). -/
def createBookingInsert (db : DB) (newBookingID : Nat) (userID : Nat)
    (req : CreateBookingRequest) (schedule : Schedule) : Booking × DB :=
  let totalPrice := schedule.price * (req.seatIDs.length : ℚ)
  let booking : Booking :=
    { id := newBookingID
      userID := userID
      scheduleID := req.scheduleID
      totalSeats := req.seatIDs.length
      totalPrice := totalPrice
      status := .pending }
  let newSeats : List BookingSeat :=
    req.seatIDs.map (fun sid => { bookingID := newBookingID, seatID := sid })
  (booking,
    { db with
        bookings := db.bookings ++ [booking]
        bookingSeats := db.bookingSeats ++ newSeats })

/-- `CreateBooking` (booking_srv.go:44): check phase then write phase.  The
two phases are separate store operations in the source (the availability
read at line 84 and the inserts at lines 138/160 are not wrapped in a
transaction); the sequential composition below is the non-interleaved
execution.  Returns the service result together with the store state after
the call; every error branch leaves the store untouched because all checks
precede all writes. -/
def createBooking (db : DB) (now : Int) (newBookingID : Nat) (userID : Nat)
    (req : CreateBookingRequest) : Except BookingError Booking × DB :=
  match createBookingCheck db now req with
  | .error e => (.error e, db)
  | .ok schedule =>
    let r := createBookingInsert db newBookingID userID req schedule
    (.ok r.1, r.2)

/-- `repo.Booking.Update` / `repo.Booking.UpdateStatus` restricted to the
status column: sets the status of the row with the given primary key. -/
def setBookingStatus (l : List Booking) (bookingID : Nat)
    (newStatus : BookingStatus) : List Booking :=
  l.map (fun b => if b.id == bookingID then { b with status := newStatus } else b)

/-- The read/check phase of `ProcessPayment` (booking_srv.go:296-348):
struct-tag validation (`Amount` tagged `required,min=1000`: a zero/absent
amount fails `required`, any amount below 1000 fails `min`), booking
lookup, ownership check, pending-status check, exact amount match against
`booking.TotalPrice`, payment-method lookup and active check, in that
order.  No store write happens in this phase.  Returns the booking and
payment method rows read. -/
def processPaymentChecks (db : DB) (userID : Nat)
    (req : ProcessPaymentRequest) : Except BookingError (Booking × PaymentMethod) :=
  if req.amount < 1000 then .error .validation
  else
    match findBookingByID db req.bookingID with
    | none => .error .notFound
    | some booking =>
      if booking.userID ≠ userID then .error .unauthorized
      else if booking.status ≠ .pending then .error .invalidState
      else if req.amount ≠ booking.totalPrice then .error .validation
      else
        match findPaymentMethodByID db req.paymentMethodID with
        | none => .error .notFound
        | some pm =>
          if pm.isActive = false then .error .invalidState
          else .ok (booking, pm)

/-- `ProcessPayment` (booking_srv.go:296): after the checks, the payment
row is persisted with status already set to `completed` (the simulated
settlement at line 367) and the booking status update to `confirmed` is
attempted.  `bookingUpdateSucceeds` models whether `repo.Booking.Update`
succeeds; on failure the code logs and continues (booking_srv.go:382-388),
still returning the payment.  Every error branch leaves the store
untouched because all checks precede all writes. -/
def processPayment (db : DB) (newPaymentID : Nat)
    (bookingUpdateSucceeds : Bool) (userID : Nat)
    (req : ProcessPaymentRequest) : Except BookingError Payment × DB :=
  match processPaymentChecks db userID req with
  | .error e => (.error e, db)
  | .ok _ =>
    let payment : Payment :=
      { id := newPaymentID
        bookingID := req.bookingID
        paymentMethodID := req.paymentMethodID
        amount := req.amount
        status := .completed }
    let db1 := { db with payments := db.payments ++ [payment] }
    let db2 :=
      if bookingUpdateSucceeds then
        { db1 with
            bookings := setBookingStatus db1.bookings req.bookingID .confirmed }
      else db1
    (.ok payment, db2)

/-- `CancelBooking` (booking_srv.go:503): booking lookup, then the guard
`booking.Status != Pending && booking.Status != Confirmed` fails with the
wrong-status error, else `repo.Booking.UpdateStatus(.., cancelled)`. -/
def cancelBooking (db : DB) (bookingID : Nat) : Except BookingError Unit × DB :=
  match findBookingByID db bookingID with
  | none => (.error .notFound, db)
  | some booking =>
    if booking.status ≠ .pending ∧ booking.status ≠ .confirmed then
      (.error .invalidState, db)
    else
      (.ok (), { db with bookings := setBookingStatus db.bookings bookingID .cancelled })

/-- One service call that can touch booking state, for statements ranging
over arbitrary operation sequences. -/
inductive Op
  | create (now : Int) (newBookingID : Nat) (userID : Nat) (req : CreateBookingRequest)
  | pay (newPaymentID : Nat) (bookingUpdateSucceeds : Bool) (userID : Nat)
      (req : ProcessPaymentRequest)
  | cancel (bookingID : Nat)

/-- The store state after one service call. -/
def applyOp (db : DB) : Op → DB
  | .create now nid uid req => (createBooking db now nid uid req).2
  | .pay pid upd uid req => (processPayment db pid upd uid req).2
  | .cancel bid => (cancelBooking db bid).2

/-- The status of the stored booking row with the given primary key. -/
def statusOf (db : DB) (bookingID : Nat) : Option BookingStatus :=
  (findBookingByID db bookingID).map Booking.status

/-- The total price of the stored booking row with the given primary key. -/
def totalPriceOf (db : DB) (bookingID : Nat) : Option ℚ :=
  (findBookingByID db bookingID).map Booking.totalPrice

/-- The status transitions of the booking state machine (spec §4.4):
`pending → confirmed`, `pending → cancelled`, `confirmed → cancelled`. -/
def allowedTransition : BookingStatus → BookingStatus → Bool
  | .pending, .confirmed => true
  | .pending, .cancelled => true
  | .confirmed, .cancelled => true
  | _, _ => false

/-- The distinct active bookings of a schedule holding a given seat: the
booking ids of `BookingSeat` rows for the seat whose parent booking targets
the schedule with status pending or confirmed. -/
def activeHolders (db : DB) (scheduleID seatID : Nat) : List Nat :=
  ((db.bookingSeats.filter (fun bs =>
      bs.seatID == seatID &&
        db.bookings.any (fun b =>
          b.id == bs.bookingID && b.scheduleID == scheduleID &&
            b.status.isActive))).map BookingSeat.bookingID).dedup

/-- Success test for a service result. -/
def resultOk {α : Type} : Except BookingError α → Bool
  | .ok _ => true
  | .error _ => false

instance {ε α : Type} [DecidableEq ε] [DecidableEq α] : DecidableEq (Except ε α) :=
  fun a b =>
    match a, b with
    | .ok x, .ok y =>
      if h : x = y then .isTrue (by rw [h])
      else .isFalse (by intro hc; cases hc; exact h rfl)
    | .error x, .error y =>
      if h : x = y then .isTrue (by rw [h])
      else .isFalse (by intro hc; cases hc; exact h rfl)
    | .ok _, .error _ => .isFalse (by intro hc; cases hc)
    | .error _, .ok _ => .isFalse (by intro hc; cases hc)

/-- Concrete schedule for the race scenario: hall 1, show at midnight plus
one hour, price 50000. -/
def raceSchedule : Schedule := ⟨1, 1, 1, 0, 3600, 50000⟩

/-- Concrete store for the race scenario: one schedule, one hall, one free
seat (id 7), no bookings yet. -/
def raceDB : DB := ⟨[raceSchedule], [⟨1, 1⟩], [⟨7, 1⟩], [], [], [], [⟨1, true⟩]⟩

/-- The request both concurrent callers issue: seat 7 of schedule 1. -/
def raceReq : CreateBookingRequest := ⟨1, [7], 1⟩

/-- The store after the interleaving in which both calls run their check
phase against the same snapshot `raceDB` (both before either insert) and
then both run their write phase.  The check phase (the availability read at
booking_srv.go:84 and the loop) and the write phase (the inserts at
booking_srv.go:138/160) are separate store operations with no transaction
or lock between them, so this schedule is realizable. -/
def raceDBAfter : DB :=
  (createBookingInsert (createBookingInsert raceDB 100 1 raceReq raceSchedule).2
    101 2 raceReq raceSchedule).2

/-- Concrete schedule for witnesses: hall 1, show-date midnight (0),
show-time one hour, price 50000. -/
def demoSchedule : Schedule := ⟨1, 1, 1, 0, 3600, 50000⟩

/-- Concrete store for witnesses: three seats in hall 1; seat 8 held by a
pending booking, seat 9 held only by a cancelled booking, seat 7 free. -/
def demoDB : DB :=
  ⟨[demoSchedule], [⟨1, 1⟩], [⟨7, 1⟩, ⟨8, 1⟩, ⟨9, 1⟩],
   [⟨20, 2, 1, 1, 50000, .pending⟩, ⟨21, 2, 1, 1, 50000, .cancelled⟩],
   [⟨20, 8⟩, ⟨21, 9⟩], [], [⟨1, true⟩, ⟨2, false⟩]⟩

/-- Witness request: seats 7 and 9 (free) of schedule 1. -/
def demoReq : CreateBookingRequest := ⟨1, [7, 9], 1⟩

/-- The booking `createBooking demoDB 0 100 5 demoReq` creates. -/
def demoBooking : Booking := ⟨100, 5, 1, 2, 100000, .pending⟩

/-- The store after `createBooking demoDB 0 100 5 demoReq`. -/
def demoDBAfter : DB :=
  { demoDB with
      bookings := demoDB.bookings ++ [demoBooking]
      bookingSeats := demoDB.bookingSeats ++ [⟨100, 7⟩, ⟨100, 9⟩] }

/-- Pending booking of user 5 with total price 100000, for payment
witnesses. -/
def payBooking : Booking := ⟨30, 5, 1, 2, 100000, .pending⟩

/-- Pending booking of user 5 whose total price 500 is below the validator
floor of 1000. -/
def lowBooking : Booking := ⟨31, 5, 1, 1, 500, .pending⟩

/-- Concrete store for payment witnesses: an active payment method (id 1),
an inactive one (id 2), and bookings 30 (pending, 100000), 31 (pending,
500) and 32 (cancelled). -/
def payDB : DB :=
  ⟨[demoSchedule], [⟨1, 1⟩], [⟨7, 1⟩, ⟨8, 1⟩, ⟨9, 1⟩],
   [payBooking, lowBooking, ⟨32, 5, 1, 1, 50000, .cancelled⟩],
   [], [], [⟨1, true⟩, ⟨2, false⟩]⟩

/-- Schedule whose show date (midnight) is more than 24 hours before the
reference time 90000, while its show date+time (82800, eleven pm of that
day) is within the 24-hour grace window. -/
def staleSchedule : Schedule := ⟨1, 1, 1, 0, 82800, 50000⟩

/-- Store for the grace-window counterexample: `staleSchedule`, hall 1,
free seat 7. -/
def staleDB : DB := ⟨[staleSchedule], [⟨1, 1⟩], [⟨7, 1⟩], [], [], [], [⟨1, true⟩]⟩

/-- Request for the grace-window counterexample: seat 7 of schedule 1. -/
def staleReq : CreateBookingRequest := ⟨1, [7], 1⟩

lemma BookingStatus.isActive_iff {s : BookingStatus} :
    s.isActive = true ↔ s = .pending ∨ s = .confirmed := by
  cases s <;> simp [BookingStatus.isActive]

lemma setBookingStatus_id (b : Booking) (target : Nat) (st : BookingStatus) :
    ((if b.id == target then { b with status := st } else b) : Booking).id = b.id := by
  split <;> rfl

lemma find?_setBookingStatus (l : List Booking) (bid target : Nat)
    (st : BookingStatus) :
    (setBookingStatus l target st).find? (fun b => b.id == bid) =
      (l.find? (fun b => b.id == bid)).map
        (fun b => if b.id == target then { b with status := st } else b) := by
  unfold setBookingStatus
  rw [List.find?_map]
  have hp : ((fun b => b.id == bid) ∘ fun b : Booking =>
      if b.id == target then { b with status := st } else b) =
      (fun b : Booking => b.id == bid) := by
    funext b
    simp only [Function.comp_apply, setBookingStatus_id]
  rw [hp]

lemma setBookingStatus_totalPrice (b : Booking) (target : Nat) (st : BookingStatus) :
    ((if b.id == target then { b with status := st } else b) : Booking).totalPrice
      = b.totalPrice := by
  split <;> rfl

lemma map_totalPrice_find?_setBookingStatus (l : List Booking) (bid target : Nat)
    (st : BookingStatus) :
    ((setBookingStatus l target st).find? (fun b => b.id == bid)).map Booking.totalPrice
      = (l.find? (fun b => b.id == bid)).map Booking.totalPrice := by
  rw [find?_setBookingStatus]
  cases h : l.find? (fun b => b.id == bid)
  · rfl
  · simp only [Option.map_some']
    rw [setBookingStatus_totalPrice]

lemma totalPriceOf_set (d : DB) (target : Nat) (st : BookingStatus) (bid : Nat) :
    totalPriceOf { d with bookings := setBookingStatus d.bookings target st } bid
      = totalPriceOf d bid := by
  unfold totalPriceOf findBookingByID
  exact map_totalPrice_find?_setBookingStatus d.bookings bid target st

lemma processPayment_snd (db : DB) (pid : Nat) (upd : Bool) (uid : Nat)
    (req : ProcessPaymentRequest) :
    (processPayment db pid upd uid req).2 = db ∨
      ∃ pay : Payment,
        (processPayment db pid upd uid req).2 = { db with payments := db.payments ++ [pay] } ∨
        (processPayment db pid upd uid req).2 =
          { db with
              payments := db.payments ++ [pay]
              bookings := setBookingStatus db.bookings req.bookingID .confirmed } := by
  unfold processPayment
  cases hc : processPaymentChecks db uid req with
  | error e => left; rfl
  | ok pr =>
    cases upd
    · right; exact ⟨_, Or.inl rfl⟩
    · right; exact ⟨_, Or.inr rfl⟩

lemma totalPriceOf_applyOp (d : DB) (op : Op) (bid : Nat) (q : ℚ)
    (h : totalPriceOf d bid = some q) : totalPriceOf (applyOp d op) bid = some q := by
  cases op with
  | create now nid uid req =>
    simp only [applyOp, createBooking]
    cases hc : createBookingCheck d now req with
    | error e => exact h
    | ok sched =>
      unfold totalPriceOf findBookingByID at h ⊢
      rcases Option.map_eq_some'.1 h with ⟨b0, hb0, hq⟩
      show (((d.bookings ++ _).find? _)).map _ = some q
      rw [List.find?_append, hb0]
      simp [hq]
  | pay pid upd uid req =>
    simp only [applyOp]
    rcases processPayment_snd d pid upd uid req with h2 | ⟨pay, h2 | h2⟩ <;> rw [h2]
    · exact h
    · exact h
    · unfold totalPriceOf findBookingByID at h ⊢
      show ((setBookingStatus d.bookings req.bookingID .confirmed).find? _).map _ = some q
      rw [map_totalPrice_find?_setBookingStatus]
      exact h
  | cancel bid2 =>
    simp only [applyOp, cancelBooking]
    split
    · exact h
    · split
      · exact h
      · unfold totalPriceOf findBookingByID at h ⊢
        show ((setBookingStatus d.bookings bid2 .cancelled).find? _).map _ = some q
        rw [map_totalPrice_find?_setBookingStatus]
        exact h

lemma checkSeat_none (db : DB) (sched : Schedule) (booked : List Nat) (sid : Nat)
    (seat : Seat) (hfound : findSeatByID db sid = some seat)
    (hhall : seat.hallID = sched.hallID) (hnb : sid ∉ booked) :
    checkSeat db sched booked sid = none := by
  unfold checkSeat
  rw [hfound]
  have hc : booked.contains sid = false := by simpa using hnb
  simp [hhall, hc, hnb]

lemma checkSeat_conflict (db : DB) (sched : Schedule) (booked : List Nat) (sid : Nat)
    (seat : Seat) (hfound : findSeatByID db sid = some seat)
    (hhall : seat.hallID = sched.hallID) (hb : sid ∈ booked) :
    checkSeat db sched booked sid = some .conflict := by
  unfold checkSeat
  rw [hfound]
  have hc : booked.contains sid = true := by simpa using hb
  simp [hhall, hc, hb]

lemma findSome?_checkSeat_conflict (db : DB) (sched : Schedule) (booked : List Nat)
    (l : List Nat)
    (hseats : ∀ sid ∈ l, ∃ seat, findSeatByID db sid = some seat ∧
      seat.hallID = sched.hallID)
    (hconf : ∃ sid ∈ l, sid ∈ booked) :
    l.findSome? (checkSeat db sched booked) = some .conflict := by
  induction l with
  | nil => rcases hconf with ⟨_, hmem, _⟩; cases hmem
  | cons a l ih =>
    obtain ⟨seat, hfound, hhall⟩ := hseats a (List.mem_cons_self a l)
    rw [List.findSome?_cons]
    by_cases hb : a ∈ booked
    · rw [checkSeat_conflict db sched booked a seat hfound hhall hb]
    · rw [checkSeat_none db sched booked a seat hfound hhall hb]
      apply ih
      · intro sid hmem
        exact hseats sid (List.mem_cons_of_mem a hmem)
      · rcases hconf with ⟨sid, hmem, hc⟩
        cases hmem with
        | head => exact absurd hc hb
        | tail _ hm2 => exact ⟨sid, hm2, hc⟩

lemma createBookingCheck_ok_schedule {db : DB} {now : Int} {req : CreateBookingRequest}
    {sched : Schedule} (h : createBookingCheck db now req = .ok sched) :
    findScheduleByID db req.scheduleID = some sched := by
  unfold createBookingCheck at h
  split at h
  · exact Except.noConfusion h
  · cases hs : findScheduleByID db req.scheduleID with
    | none =>
      simp only [hs] at h
      exact Except.noConfusion h
    | some schedule =>
      simp only [hs] at h
      split at h
      · exact Except.noConfusion h
      · split at h
        · exact Except.noConfusion h
        · split at h
          · exact Except.noConfusion h
          · cases h
            rfl

lemma createBookingCheck_ok_of_valid (db : DB) (now : Int) (req : CreateBookingRequest)
    (sched : Schedule)
    (hne : req.seatIDs ≠ [])
    (hs : findScheduleByID db req.scheduleID = some sched)
    (hstale : ¬ sched.showDate < now - graceWindowSeconds)
    (hseats : ∀ sid ∈ req.seatIDs, ∃ seat, findSeatByID db sid = some seat ∧
      seat.hallID = sched.hallID ∧ sid ∉ findBookedSeatsBySchedule db req.scheduleID)
    (hhall : ∃ hall, findHallByID db sched.hallID = some hall) :
    createBookingCheck db now req = .ok sched := by
  have he : req.seatIDs.isEmpty = false := List.isEmpty_eq_false.mpr hne
  have hnone : req.seatIDs.findSome?
      (checkSeat db sched (findBookedSeatsBySchedule db req.scheduleID)) = none := by
    apply List.findSome?_eq_none_iff.mpr
    intro sid hmem
    obtain ⟨seat, hfound, hhall2, hnb⟩ := hseats sid hmem
    exact checkSeat_none db sched _ sid seat hfound hhall2 hnb
  obtain ⟨hall, hh⟩ := hhall
  unfold createBookingCheck
  rw [he]
  simp only [Bool.false_eq_true, if_false, hs]
  rw [if_neg hstale]
  simp only [hnone, hh]

lemma processPaymentChecks_ok {db : DB} {uid : Nat} {req : ProcessPaymentRequest}
    {b : Booking} {pm : PaymentMethod}
    (h : processPaymentChecks db uid req = .ok (b, pm)) :
    ¬ req.amount < 1000 ∧ findBookingByID db req.bookingID = some b ∧
      b.userID = uid ∧ b.status = .pending ∧ req.amount = b.totalPrice ∧
      findPaymentMethodByID db req.paymentMethodID = some pm ∧ pm.isActive = true := by
  unfold processPaymentChecks at h
  split at h
  · exact Except.noConfusion h
  · cases hb : findBookingByID db req.bookingID with
    | none =>
      simp only [hb] at h
      exact Except.noConfusion h
    | some b0 =>
      simp only [hb] at h
      split at h
      · exact Except.noConfusion h
      · split at h
        · exact Except.noConfusion h
        · split at h
          · exact Except.noConfusion h
          · cases hpm : findPaymentMethodByID db req.paymentMethodID with
            | none =>
              simp only [hpm] at h
              exact Except.noConfusion h
            | some pm0 =>
              simp only [hpm] at h
              split at h
              · exact Except.noConfusion h
              · injection h with h2
                injection h2 with h3 h4
                subst h3
                subst h4
                refine ⟨by assumption, rfl, not_not.mp (by assumption),
                  not_not.mp (by assumption), not_not.mp (by assumption), rfl, ?_⟩
                have hpa : ¬ pm0.isActive = false := by assumption
                cases hval : pm0.isActive
                · exact absurd hval hpa
                · rfl

/-- C4 — BookedSeats correctness: membership in `findBookedSeatsBySchedule`
is exactly "some BookingSeat row for this seat has a parent booking for this
schedule with status pending or confirmed"; in particular seats held only by
cancelled or expired bookings are excluded. -/
theorem bookedSeats_mem_iff (db : DB) (scheduleID seatID : Nat) :
    seatID ∈ findBookedSeatsBySchedule db scheduleID ↔
      ∃ bs ∈ db.bookingSeats, bs.seatID = seatID ∧
        ∃ b ∈ db.bookings, b.id = bs.bookingID ∧ b.scheduleID = scheduleID ∧
          (b.status = .pending ∨ b.status = .confirmed) := by
  unfold findBookedSeatsBySchedule
  simp only [List.mem_dedup, List.mem_map, List.mem_filter, List.any_eq_true,
    Bool.and_eq_true, beq_iff_eq, BookingStatus.isActive_iff]
  constructor
  · rintro ⟨bs, ⟨hmem, b, hb, ⟨hid, hsched⟩, hst⟩, hseat⟩
    exact ⟨bs, hmem, hseat, b, hb, hid, hsched, hst⟩
  · rintro ⟨bs, hmem, hseat, b, hb, hid, hsched, hst⟩
    exact ⟨bs, ⟨hmem, b, hb, ⟨hid, hsched⟩, hst⟩, hseat⟩

/-- C1 — No double booking FAILS on this code (the spec itself flags the
race in §5): `CreateBooking`'s availability check (booking_srv.go:84-109)
and its inserts (booking_srv.go:138-160) are separate, untransacted store
operations, so two calls for the same seat may both run the check phase
against the same snapshot before either insert.  This theorem exhibits that
interleaving: both calls pass the check on `raceDB` (the check does not
depend on the caller), both write phases then run, and the final store has
TWO distinct bookings with status pending holding seat 7 of schedule 1, so
both calls returned success instead of exactly one.  The third conjunct
shows the sequential (non-interleaved) composition does return the
Conflict error, locating the violation in the interleaving alone. -/
theorem createBooking_race_double_books :
    createBookingCheck raceDB 0 raceReq = .ok raceSchedule ∧
    (activeHolders raceDBAfter 1 7).length = 2 ∧
    (createBooking (createBooking raceDB 0 100 1 raceReq).2 0 101 2 raceReq).1
      = .error .conflict := by decide

/-- C2 — Price invariant: every successfully created booking has
`total_price = schedule.price * len(seatIDs)` computed from the schedule
row that was read, status `pending`, and no later operation
(`CreateBooking`, `ProcessPayment`, `CancelBooking`) ever changes a stored
booking's total price (the price is snapshotted, never recomputed). -/
theorem createBooking_price_invariant (db : DB) (now : Int) (nid uid : Nat)
    (req : CreateBookingRequest) (b : Booking) (db2 : DB)
    (h : createBooking db now nid uid req = (.ok b, db2)) :
    (∃ sched, findScheduleByID db req.scheduleID = some sched ∧
        b.totalPrice = sched.price * (req.seatIDs.length : ℚ)) ∧
      b.status = .pending ∧
      ∀ (d : DB) (op : Op) (bid : Nat) (q : ℚ),
        totalPriceOf d bid = some q → totalPriceOf (applyOp d op) bid = some q := by
  unfold createBooking at h
  cases hc : createBookingCheck db now req with
  | error e =>
    simp only [hc] at h
    exact absurd h (by simp)
  | ok sched =>
    simp only [hc] at h
    have h1 : (createBookingInsert db nid uid req sched).1 = b := by
      simpa using congrArg Prod.fst h
    refine ⟨⟨sched, createBookingCheck_ok_schedule hc, ?_⟩, ?_,
      fun d op bid q hq => totalPriceOf_applyOp d op bid q hq⟩
    · rw [← h1]
      rfl
    · rw [← h1]
      rfl

/-- Witness for C2: the booking created at `demoDB` for two seats of the
50000-priced schedule has total price 100000 and status pending. -/
theorem createBooking_price_invariant_witness :
    (∃ sched, findScheduleByID demoDB demoReq.scheduleID = some sched ∧
        demoBooking.totalPrice = sched.price * (demoReq.seatIDs.length : ℚ)) ∧
      demoBooking.status = .pending ∧
      ∀ (d : DB) (op : Op) (bid : Nat) (q : ℚ),
        totalPriceOf d bid = some q → totalPriceOf (applyOp d op) bid = some q :=
  createBooking_price_invariant demoDB 0 100 5 demoReq demoBooking demoDBAfter (by
    have hcheck : createBookingCheck demoDB 0 demoReq = .ok demoSchedule := by decide
    unfold createBooking
    rw [hcheck]
    simp only [createBookingInsert, demoBooking, demoDBAfter, demoDB, demoReq, demoSchedule]
    norm_num)

/-- C3 — Conflict atomicity: when the per-seat existence and hall checks
pass but at least one requested seat is already in the booked-seat set of
the schedule, `CreateBooking` fails with the Conflict error ("seat already
booked") and the store is returned unchanged: no Booking row and no
BookingSeat row is persisted (in the source all checks precede all
writes). -/
theorem createBooking_conflict_atomic (db : DB) (now : Int) (nid uid : Nat)
    (req : CreateBookingRequest) (sched : Schedule)
    (hs : findScheduleByID db req.scheduleID = some sched)
    (hstale : ¬ sched.showDate < now - graceWindowSeconds)
    (hseats : ∀ sid ∈ req.seatIDs, ∃ seat, findSeatByID db sid = some seat ∧
      seat.hallID = sched.hallID)
    (hconf : ∃ sid ∈ req.seatIDs, sid ∈ findBookedSeatsBySchedule db req.scheduleID) :
    createBooking db now nid uid req = (.error .conflict, db) := by
  have hcheck : createBookingCheck db now req = .error .conflict := by
    have hfs := findSome?_checkSeat_conflict db sched
      (findBookedSeatsBySchedule db req.scheduleID) req.seatIDs hseats hconf
    obtain ⟨sid0, hmem0, _⟩ := hconf
    have he : req.seatIDs.isEmpty = false :=
      List.isEmpty_eq_false.mpr (List.ne_nil_of_mem hmem0)
    unfold createBookingCheck
    rw [he]
    simp only [Bool.false_eq_true, if_false, hs]
    rw [if_neg hstale]
    simp only [hfs]
  unfold createBooking
  rw [hcheck]

/-- Witness for C3: requesting seat 8 (held by the pending booking 20)
fails with Conflict and leaves `demoDB` unchanged. -/
theorem createBooking_conflict_atomic_witness :
    createBooking demoDB 0 101 5 ⟨1, [8], 1⟩ = (.error .conflict, demoDB) :=
  createBooking_conflict_atomic demoDB 0 101 5 ⟨1, [8], 1⟩ demoSchedule
    (by decide) (by decide)
    (fun sid hmem => by
      have hsid : sid = 8 := by simpa using hmem
      subst hsid
      exact ⟨⟨8, 1⟩, by decide, by decide⟩)
    (by decide)

/-- C6 — Payment amount exact match: for a pending booking owned by the
caller, any request whose amount differs from the booking's total price by
any nonzero margin fails with the Validation error, and the store is
returned unchanged: no Payment row is created and the Booking is not
modified (whether the difference trips the validator floor at
booking_srv.go:298 or the exact-match check at booking_srv.go:336, both
precede every write). -/
theorem processPayment_amount_mismatch (db : DB) (pid : Nat) (upd : Bool) (uid : Nat)
    (req : ProcessPaymentRequest) (b : Booking)
    (hb : findBookingByID db req.bookingID = some b)
    (hown : b.userID = uid)
    (hpend : b.status = .pending)
    (hne : req.amount ≠ b.totalPrice) :
    processPayment db pid upd uid req = (.error .validation, db) := by
  have hc : processPaymentChecks db uid req = .error .validation := by
    unfold processPaymentChecks
    by_cases hlow : req.amount < 1000
    · rw [if_pos hlow]
    · rw [if_neg hlow]
      simp only [hb]
      rw [if_neg (by simp [hown]), if_neg (by simp [hpend]), if_pos hne]
  unfold processPayment
  rw [hc]

/-- Witness for C6: paying 99999 against booking 30 (total 100000) fails
with Validation and leaves the store unchanged. -/
theorem processPayment_amount_mismatch_witness :
    processPayment payDB 200 true 5 ⟨30, 1, 99999⟩ = (.error .validation, payDB) :=
  processPayment_amount_mismatch payDB 200 true 5 ⟨30, 1, 99999⟩ payBooking
    (by decide) (by decide) (by decide) (by decide)

/-- C7 — Payment/booking desynchronization tolerance: when every check
passes and the persisting of the Payment row succeeds but the booking
status update to confirmed fails (modelled by `bookingUpdateSucceeds =
false`), `ProcessPayment` still returns success with the Payment stored in
`completed` status, and the stored Booking remains `pending` (the failure
is only logged, booking_srv.go:382-388). -/
theorem processPayment_update_failure_tolerated (db : DB) (pid uid : Nat)
    (req : ProcessPaymentRequest) (b : Booking) (pm : PaymentMethod)
    (hamt : ¬ req.amount < 1000)
    (hb : findBookingByID db req.bookingID = some b)
    (hown : b.userID = uid)
    (hpend : b.status = .pending)
    (heq : req.amount = b.totalPrice)
    (hpm : findPaymentMethodByID db req.paymentMethodID = some pm)
    (hact : pm.isActive = true) :
    processPayment db pid false uid req =
      (.ok { id := pid, bookingID := req.bookingID, paymentMethodID := req.paymentMethodID,
             amount := req.amount, status := .completed },
       { db with payments := db.payments ++
           [{ id := pid, bookingID := req.bookingID, paymentMethodID := req.paymentMethodID,
              amount := req.amount, status := .completed }] }) ∧
      statusOf (processPayment db pid false uid req).2 req.bookingID = some .pending := by
  have hc : processPaymentChecks db uid req = .ok (b, pm) := by
    unfold processPaymentChecks
    rw [if_neg hamt]
    simp only [hb]
    rw [if_neg (by simp [hown]), if_neg (by simp [hpend]), if_neg (by simp [heq])]
    simp only [hpm]
    rw [if_neg (by simp [hact])]
  have hstat : statusOf db req.bookingID = some .pending := by
    unfold statusOf
    rw [hb]
    simp [hpend]
  constructor
  · unfold processPayment
    rw [hc]
    rfl
  · unfold processPayment
    rw [hc]
    exact hstat

/-- Witness for C7: paying booking 30 exactly with the update failing
leaves booking 30 pending while the payment is stored completed. -/
theorem processPayment_update_failure_tolerated_witness :
    processPayment payDB 201 false 5 ⟨30, 1, 100000⟩ =
      (.ok { id := 201, bookingID := 30, paymentMethodID := 1,
             amount := 100000, status := .completed },
       { payDB with payments := payDB.payments ++
           [{ id := 201, bookingID := 30, paymentMethodID := 1,
              amount := 100000, status := .completed }] }) ∧
      statusOf (processPayment payDB 201 false 5 ⟨30, 1, 100000⟩).2 30 = some .pending :=
  processPayment_update_failure_tolerated payDB 201 5 ⟨30, 1, 100000⟩ payBooking ⟨1, true⟩
    (by decide) (by decide) (by decide) (by decide) (by decide) (by decide) (by decide)

/-- C10 — Minimum payment amount floor: the struct-tag validator
(`validate:"required,min=1000"`) rejects any amount below 1000 with the
Validation error before the booking is even looked up (the first conjunct
holds for every store, including stores in which the booking does not
exist, where a lookup-first implementation would report NotFound); hence a
booking whose total price is below 1000 can never be paid: either the
amount is below 1000 (validator) or it is at least 1000 and so differs
from the total price (exact-match check). -/
theorem processPayment_min_amount_floor (db : DB) (pid : Nat) (upd : Bool) (uid : Nat)
    (req : ProcessPaymentRequest) :
    (req.amount < 1000 → processPayment db pid upd uid req = (.error .validation, db)) ∧
      (∀ b, findBookingByID db req.bookingID = some b → b.totalPrice < 1000 →
        ∀ p, (processPayment db pid upd uid req).1 ≠ .ok p) := by
  constructor
  · intro hlow
    have hc : processPaymentChecks db uid req = .error .validation := by
      unfold processPaymentChecks
      rw [if_pos hlow]
    unfold processPayment
    rw [hc]
  · intro b hb hlowtp p hok
    unfold processPayment at hok
    cases hc : processPaymentChecks db uid req with
    | error e =>
      simp only [hc] at hok
      exact Except.noConfusion hok
    | ok pr =>
      obtain ⟨b2, pm2⟩ := pr
      obtain ⟨hamt, hb2, -, -, heqamt, -, -⟩ := processPaymentChecks_ok hc
      rw [hb] at hb2
      injection hb2 with hbb
      apply hamt
      rw [heqamt, ← hbb]
      exact hlowtp

/-- Witness for C10: an amount of 700 is rejected by the validator, and
booking 31 (total price 500) cannot be paid even with the exact amount. -/
theorem processPayment_min_amount_floor_witness :
    processPayment payDB 203 true 5 ⟨31, 1, 700⟩ = (.error .validation, payDB) ∧
      (processPayment payDB 204 true 5 ⟨31, 1, 500⟩).1 ≠
        .ok { id := 204, bookingID := 31, paymentMethodID := 1,
              amount := 500, status := .completed } :=
  ⟨(processPayment_min_amount_floor payDB 203 true 5 ⟨31, 1, 700⟩).1 (by decide),
   (processPayment_min_amount_floor payDB 204 true 5 ⟨31, 1, 500⟩).2 lowBooking
     (by decide) (by decide)
     { id := 204, bookingID := 31, paymentMethodID := 1,
       amount := 500, status := .completed }⟩

/-- C5 — Status monotonicity: every operation either leaves a stored
booking's status unchanged or performs one of the transitions
`pending → confirmed`, `pending → cancelled`, `confirmed → cancelled`
(so along any operation sequence the status history is a prefix of
`pending → (confirmed|cancelled)`, new bookings starting at `pending` by
C2); `ProcessPayment` succeeds only on a pending booking, `CancelBooking`
succeeds only on a pending or confirmed booking, and `CancelBooking` on a
cancelled booking fails with InvalidState instead of succeeding
idempotently. -/
theorem booking_status_monotonic (db : DB) (op : Op) (bid : Nat) :
    (∀ s sNew, statusOf db bid = some s → statusOf (applyOp db op) bid = some sNew →
       sNew = s ∨ allowedTransition s sNew = true) ∧
    (∀ pid upd uid req p db2, processPayment db pid upd uid req = (.ok p, db2) →
       ∃ b, findBookingByID db req.bookingID = some b ∧ b.status = .pending) ∧
    (∀ bid2 db2, cancelBooking db bid2 = (.ok (), db2) →
       ∃ b, findBookingByID db bid2 = some b ∧
         (b.status = .pending ∨ b.status = .confirmed)) ∧
    (∀ b, findBookingByID db bid = some b → b.status = .cancelled →
       cancelBooking db bid = (.error .invalidState, db)) := by
  refine ⟨?_, ?_, ?_, ?_⟩
  · cases op with
    | create now nid uid req =>
      intro s sNew hOld hNew
      left
      simp only [applyOp, createBooking] at hNew
      cases hc : createBookingCheck db now req with
      | error e =>
        simp only [hc] at hNew
        have hNew2 : statusOf db bid = some sNew := hNew
        rw [hOld] at hNew2
        injection hNew2 with h3
        exact h3.symm
      | ok sched =>
        simp only [hc] at hNew
        unfold statusOf findBookingByID at hOld
        rcases Option.map_eq_some'.1 hOld with ⟨b0, hb0, hs0⟩
        have hNew2 : ((db.bookings ++ [(createBookingInsert db nid uid req sched).1]).find?
            (fun x => x.id == bid)).map Booking.status = some sNew := hNew
        rw [List.find?_append, hb0] at hNew2
        simp only [Option.or_some, Option.map_some'] at hNew2
        injection hNew2 with h3
        rw [← h3]
        exact hs0
    | pay pid upd uid req =>
      intro s sNew hOld hNew
      simp only [applyOp] at hNew
      cases hc : processPaymentChecks db uid req with
      | error e =>
        left
        have h2 : (processPayment db pid upd uid req).2 = db := by
          unfold processPayment
          rw [hc]
        rw [h2] at hNew
        rw [hOld] at hNew
        injection hNew with h3
        exact h3.symm
      | ok pr =>
        obtain ⟨b2, pm2⟩ := pr
        obtain ⟨-, hb2, -, hpend2, -, -, -⟩ := processPaymentChecks_ok hc
        cases upd with
        | false =>
          left
          have h2 : (processPayment db pid false uid req).2.bookings = db.bookings := by
            unfold processPayment
            rw [hc]
            rfl
          unfold statusOf findBookingByID at hNew
          rw [h2] at hNew
          unfold statusOf findBookingByID at hOld
          rw [hOld] at hNew
          injection hNew with h3
          exact h3.symm
        | true =>
          have h2 : (processPayment db pid true uid req).2.bookings =
              setBookingStatus db.bookings req.bookingID .confirmed := by
            unfold processPayment
            rw [hc]
            rfl
          unfold statusOf findBookingByID at hOld hNew
          rw [h2, find?_setBookingStatus] at hNew
          rcases Option.map_eq_some'.1 hOld with ⟨b0, hb0, hs0⟩
          rw [hb0] at hNew
          simp only [Option.map_some'] at hNew
          injection hNew with h3
          by_cases hbt : (b0.id == req.bookingID) = true
          · right
            have hid1 : b0.id = bid := by simpa using List.find?_some hb0
            have hid2 : b0.id = req.bookingID := by simpa using hbt
            have hbid : bid = req.bookingID := by rw [← hid1, hid2]
            have hb2x : db.bookings.find? (fun x => x.id == req.bookingID) = some b2 := hb2
            have hb0x : db.bookings.find? (fun x => x.id == req.bookingID) = some b0 := by
              rw [← hbid]
              exact hb0
            rw [hb0x] at hb2x
            injection hb2x with hbb
            have hsp : s = .pending := by
              rw [← hs0, hbb, hpend2]
            have hsn : sNew = .confirmed := by
              rw [← h3, if_pos hbt]
            rw [hsp, hsn]
            rfl
          · left
            rw [if_neg hbt] at h3
            rw [← h3]
            exact hs0
    | cancel bid2 =>
      intro s sNew hOld hNew
      simp only [applyOp, cancelBooking] at hNew
      cases hfb : findBookingByID db bid2 with
      | none =>
        left
        simp only [hfb] at hNew
        have hNew2 : statusOf db bid = some sNew := hNew
        rw [hOld] at hNew2
        injection hNew2 with h3
        exact h3.symm
      | some b =>
        simp only [hfb] at hNew
        split at hNew
        · left
          have hNew2 : statusOf db bid = some sNew := hNew
          rw [hOld] at hNew2
          injection hNew2 with h3
          exact h3.symm
        · rename_i hcond
          have hbstat : b.status = .pending ∨ b.status = .confirmed := by
            rcases not_and_or.mp hcond with h4 | h4
            · exact Or.inl (not_not.mp h4)
            · exact Or.inr (not_not.mp h4)
          unfold statusOf findBookingByID at hOld
          have hNew2 : ((setBookingStatus db.bookings bid2 .cancelled).find?
              (fun x => x.id == bid)).map Booking.status = some sNew := hNew
          rw [find?_setBookingStatus] at hNew2
          rcases Option.map_eq_some'.1 hOld with ⟨b0, hb0, hs0⟩
          rw [hb0] at hNew2
          simp only [Option.map_some'] at hNew2
          injection hNew2 with h3
          by_cases hbt : (b0.id == bid2) = true
          · right
            have hid1 : b0.id = bid := by simpa using List.find?_some hb0
            have hid2 : b0.id = bid2 := by simpa using hbt
            have hbid : bid = bid2 := by rw [← hid1, hid2]
            have hfbx : db.bookings.find? (fun x => x.id == bid2) = some b := hfb
            have hb0x : db.bookings.find? (fun x => x.id == bid2) = some b0 := by
              rw [← hbid]
              exact hb0
            rw [hb0x] at hfbx
            injection hfbx with hbb
            have hsn : sNew = .cancelled := by
              rw [← h3, if_pos hbt]
            have hsb : s = b.status := by
              rw [← hs0, hbb]
            rcases hbstat with h5 | h5
            · rw [hsn, hsb, h5]
              rfl
            · rw [hsn, hsb, h5]
              rfl
          · left
            rw [if_neg hbt] at h3
            rw [← h3]
            exact hs0
  · intro pid upd uid req p db2 h
    unfold processPayment at h
    cases hc : processPaymentChecks db uid req with
    | error e =>
      simp only [hc] at h
      exact absurd h (by simp)
    | ok pr =>
      obtain ⟨b2, pm2⟩ := pr
      obtain ⟨-, hb2, -, hpend2, -, -, -⟩ := processPaymentChecks_ok hc
      exact ⟨b2, hb2, hpend2⟩
  · intro bid2 db2 h
    unfold cancelBooking at h
    cases hfb : findBookingByID db bid2 with
    | none =>
      simp only [hfb] at h
      exact absurd h (by simp)
    | some b =>
      simp only [hfb] at h
      split at h
      · exact absurd h (by simp)
      · rename_i hcond
        refine ⟨b, rfl, ?_⟩
        rcases not_and_or.mp hcond with h4 | h4
        · exact Or.inl (not_not.mp h4)
        · exact Or.inr (not_not.mp h4)
  · intro b hb hcanc
    unfold cancelBooking
    simp only [hb]
    rw [if_pos ⟨by rw [hcanc]; exact fun h => BookingStatus.noConfusion h,
      by rw [hcanc]; exact fun h => BookingStatus.noConfusion h⟩]

/-- Witness for C5: paying booking 30 transitions pending to confirmed (an
allowed transition), and cancelling the cancelled booking 32 fails with
InvalidState leaving the store unchanged. -/
theorem booking_status_monotonic_witness :
    (BookingStatus.confirmed = BookingStatus.pending ∨
      allowedTransition .pending .confirmed = true) ∧
    cancelBooking payDB 32 = (.error .invalidState, payDB) :=
  ⟨(booking_status_monotonic payDB (.pay 202 true 5 ⟨30, 1, 100000⟩) 30).1
      .pending .confirmed (by decide) (by decide),
   (booking_status_monotonic payDB (.cancel 32) 32).2.2.2
      ⟨32, 5, 1, 1, 50000, .cancelled⟩ (by decide) (by decide)⟩

/-- C8 — counterexample: the claim "accepts (with respect to this check)
every request whose show date+time is within the 24-hour grace window" is
false on the code.  The staleness check at booking_srv.go:69 compares only
`schedule.ShowDate` (midnight) against `now - 24h` and never consults
`ShowTime`.  Here the show is at 23:00 of day 0 (date+time 82800) and now
is 90000, so the show ended only 7200 seconds ago — well inside the
24-hour window — yet the call is rejected with InvalidState.  The same
request issued at time 82800 succeeds, showing every other check passes,
so the rejection is attributable to the staleness check alone. -/
theorem createBooking_grace_window_counterexample :
    (90000 : Int) - graceWindowSeconds < staleSchedule.showDate + staleSchedule.showTime ∧
    0 ≤ staleSchedule.showTime ∧
    (createBooking staleDB 90000 100 1 staleReq).1 = .error .invalidState ∧
    resultOk (createBooking staleDB 82800 100 1 staleReq).1 = true := by decide

/-- C8 amended — Stale-schedule rejection by show DATE only: `CreateBooking`
rejects with InvalidState exactly those requests whose schedule's show DATE
(midnight, the `ShowDate` column alone — `ShowTime` is ignored) lies more
than 24 hours before now.  Consequently it does reject every request whose
show date+time is more than 24 hours in the past (first two conjuncts),
but it does NOT accept every request within the 24-hour grace window: it
accepts (with respect to this check, third conjunct) only those whose show
DATE is within 24 hours. -/
theorem createBooking_stale_show_date_only (db : DB) (now : Int) (nid uid : Nat)
    (req : CreateBookingRequest) (sched : Schedule)
    (hne : req.seatIDs ≠ [])
    (hs : findScheduleByID db req.scheduleID = some sched) :
    (sched.showDate < now - graceWindowSeconds →
       createBooking db now nid uid req = (.error .invalidState, db)) ∧
    (0 ≤ sched.showTime → sched.showDate + sched.showTime < now - graceWindowSeconds →
       createBooking db now nid uid req = (.error .invalidState, db)) ∧
    (¬ sched.showDate < now - graceWindowSeconds →
      (∀ sid ∈ req.seatIDs, ∃ seat, findSeatByID db sid = some seat ∧
        seat.hallID = sched.hallID ∧ sid ∉ findBookedSeatsBySchedule db req.scheduleID) →
      (∃ hall, findHallByID db sched.hallID = some hall) →
      resultOk (createBooking db now nid uid req).1 = true) := by
  have hrej : sched.showDate < now - graceWindowSeconds →
      createBooking db now nid uid req = (.error .invalidState, db) := by
    intro hlt
    have hcheck : createBookingCheck db now req = .error .invalidState := by
      have he : req.seatIDs.isEmpty = false := List.isEmpty_eq_false.mpr hne
      unfold createBookingCheck
      rw [he]
      simp only [Bool.false_eq_true, if_false, hs]
      rw [if_pos hlt]
    unfold createBooking
    rw [hcheck]
  refine ⟨hrej, ?_, ?_⟩
  · intro hst hlt
    apply hrej
    omega
  · intro hnl hseats hhall
    have hcheck := createBookingCheck_ok_of_valid db now req sched hne hs hnl hseats hhall
    unfold createBooking
    rw [hcheck]
    rfl

/-- Witness for the amended C8: at time 200000 the day-0 show is rejected
as stale (its show date is more than 24 hours past); at time 82800 the
same request succeeds. -/
theorem createBooking_stale_show_date_only_witness :
    createBooking staleDB 200000 100 1 staleReq = (.error .invalidState, staleDB) ∧
    resultOk (createBooking staleDB 82800 100 1 staleReq).1 = true :=
  ⟨(createBooking_stale_show_date_only staleDB 200000 100 1 staleReq staleSchedule
      (by decide) (by decide)).1 (by decide),
   (createBooking_stale_show_date_only staleDB 82800 100 1 staleReq staleSchedule
      (by decide) (by decide)).2.2 (by decide)
      (fun sid hmem => by
        have hsid : sid = 7 := by simpa [staleReq] using hmem
        subst hsid
        exact ⟨⟨7, 1⟩, by decide, by decide, by decide⟩)
      ⟨⟨1, 1⟩, by decide⟩⟩

/-- C9 — Duplicate seat ids within one request are not rejected: when every
entry of `seatIDs` names an existing, unbooked seat of the schedule's hall,
the booking is created successfully even if the same seat id occurs more
than once; `TotalSeats` and `TotalPrice` count each occurrence separately
(`len(seatUUIDs)`), and one BookingSeat row is persisted per occurrence,
so the same seat gets several rows under the one booking. -/
theorem createBooking_duplicate_seats (db : DB) (now : Int) (nid uid : Nat)
    (req : CreateBookingRequest) (sched : Schedule)
    (hne : req.seatIDs ≠ [])
    (hs : findScheduleByID db req.scheduleID = some sched)
    (hstale : ¬ sched.showDate < now - graceWindowSeconds)
    (hseats : ∀ sid ∈ req.seatIDs, ∃ seat, findSeatByID db sid = some seat ∧
      seat.hallID = sched.hallID ∧ sid ∉ findBookedSeatsBySchedule db req.scheduleID)
    (hhall : ∃ hall, findHallByID db sched.hallID = some hall)
    (hfresh : ∀ bs ∈ db.bookingSeats, bs.bookingID ≠ nid)
    (s : Nat) (hdup : 2 ≤ req.seatIDs.count s) :
    ∃ b db2, createBooking db now nid uid req = (.ok b, db2) ∧
      b.totalSeats = req.seatIDs.length ∧
      b.totalPrice = sched.price * (req.seatIDs.length : ℚ) ∧
      (db2.bookingSeats.filter (fun bs => bs.bookingID == nid && bs.seatID == s)).length
        = req.seatIDs.count s ∧
      2 ≤ (db2.bookingSeats.filter
        (fun bs => bs.bookingID == nid && bs.seatID == s)).length := by
  have hcheck := createBookingCheck_ok_of_valid db now req sched hne hs hstale hseats hhall
  have hcount : (((createBookingInsert db nid uid req sched).2.bookingSeats).filter
      (fun bs => bs.bookingID == nid && bs.seatID == s)).length = req.seatIDs.count s := by
    show ((db.bookingSeats ++ req.seatIDs.map
      (fun sid => ({ bookingID := nid, seatID := sid } : BookingSeat))).filter
      (fun bs => bs.bookingID == nid && bs.seatID == s)).length = req.seatIDs.count s
    rw [List.filter_append]
    have h1 : db.bookingSeats.filter (fun bs => bs.bookingID == nid && bs.seatID == s)
        = [] := by
      rw [List.filter_eq_nil_iff]
      intro bs hmem
      simp [hfresh bs hmem]
    rw [h1, List.nil_append, List.filter_map]
    have h2 : ((fun bs : BookingSeat => bs.bookingID == nid && bs.seatID == s) ∘
        (fun sid => ({ bookingID := nid, seatID := sid } : BookingSeat)))
        = (fun sid => sid == s) := by
      funext sid
      simp
    rw [h2, List.length_map, ← List.countP_eq_length_filter]
    exact (List.count_eq_countP s req.seatIDs).symm
  refine ⟨(createBookingInsert db nid uid req sched).1,
    (createBookingInsert db nid uid req sched).2, ?_, rfl, rfl, hcount, ?_⟩
  · unfold createBooking
    rw [hcheck]
  · rw [hcount]
    exact hdup

/-- Witness for C9: requesting seat 7 twice at `demoDB` succeeds and
persists two BookingSeat rows for seat 7 under the new booking. -/
theorem createBooking_duplicate_seats_witness :
    2 ≤ ((createBooking demoDB 0 100 5 ⟨1, [7, 7], 1⟩).2.bookingSeats.filter
      (fun bs => bs.bookingID == 100 && bs.seatID == 7)).length := by
  obtain ⟨b, db2, heq, -, -, -, hge⟩ :=
    createBooking_duplicate_seats demoDB 0 100 5 ⟨1, [7, 7], 1⟩ demoSchedule
      (by decide) (by decide) (by decide)
      (fun sid hmem => by
        have hsid : sid = 7 := by simpa using hmem
        subst hsid
        exact ⟨⟨7, 1⟩, by decide, by decide, by decide⟩)
      ⟨⟨1, 1⟩, by decide⟩ (by decide) 7 (by decide)
  rw [heq]
  exact hge

end CinemaBooking
